import Mathlib

/-!
Verification of the `rich_transient` package (`src/rich_transient/__init__.py`):
a transient live panel that streams output lines while a background task runs.

The embedding below translates the Python source into Lean:
* Python lists of lines become `List String`; the slice `l[start:]` becomes
  `pySliceFrom`, including Python's negative-index semantics (`l[-0:] = l`).
* `time.monotonic()` readings and the float refresh rate `8.0` are modelled
  over `ℚ`; Python `int()` truncates toward zero (`pyTrunc`), and Python `%`
  with a positive divisor agrees with `Int.emod`.
* The shared mutable state (`lines_list`, `current_status`) guarded by the
  lock becomes an explicit `PanelState` threaded through `append`/`set_status`.
* `run_task`'s interaction with the `Live` rendering surface becomes an
  explicit event trace (`begin`, `update`, `endSurface`), parametrised by the
  number of times the poll loop observed the worker thread alive; the
  background `run` closure becomes `backgroundRun`, producing the contents of
  `result_holder` and `exc_holder`.
* The external markup parser (`rich.text.Text.from_markup`) is an abstract
  function `String → Except MarkupError StyledText`, per the spec's
  styled-text collaborator interface.
-/

namespace RichTransient

/-- Python slice `l[start:]` for an `Int` index: a negative `start` counts
from the end (clamped at 0), a nonnegative `start` counts from the front
(clamped at the length). In particular `l[-0:] = l[0:] = l`. -/
def pySliceFrom (l : List String) (start : Int) : List String :=
  if start < 0 then l.drop (l.length - (-start).toNat)
  else l.drop (min start.toNat l.length)

/-- Python `int(q)` for a rational `q`: truncation toward zero. -/
def pyTrunc (q : ℚ) : Int :=
  if 0 ≤ q then ⌊q⌋ else -⌊-q⌋

/-- `SPINNER_BRAILLE`: the braille spinner frames (module line 108). -/
def SPINNER_BRAILLE : List String :=
  ["⠋", "⠙", "⠹", "⠸", "⠼", "⠴", "⠦", "⠧", "⠇", "⠏"]

/-- `LIVE_REFRESH_PER_SECOND = 8.0` (module line 111). -/
def LIVE_REFRESH_PER_SECOND : ℚ := 8

/-- `get_braille_frame()` (lines 114-119):
`int(time.monotonic() * LIVE_REFRESH_PER_SECOND) % len(SPINNER_BRAILLE)`,
with the monotonic clock reading passed explicitly. -/
def get_braille_frame (monotonic : ℚ) : Int :=
  pyTrunc (monotonic * LIVE_REFRESH_PER_SECOND) % (SPINNER_BRAILLE.length : Int)

/-- `TransientPanelConfig` (lines 156-166) with its field defaults. -/
structure TransientPanelConfig where
  max_lines : Int := 100
  display_lines : Int := 24
  refresh_per_second : ℚ := LIVE_REFRESH_PER_SECOND
  default_status : String := "Running"
  reserve_lines : Int := 12
  border_style : String := "dim"
  padding : Int × Int := (0, 1)
deriving DecidableEq, Repr

/-- `TRANSIENT_PANEL_PRESETS` (lines 170-177), as an association list. -/
def TRANSIENT_PANEL_PRESETS : List (String × TransientPanelConfig) :=
  [("default", {}),
   ("streaming", { max_lines := 200, display_lines := 28, default_status := "Running" })]

/-- One keyword override passed to `_resolve_panel_config`: either a known
field name carrying an optional (possibly `None`) value of that field's type,
or a keyword whose name is not a field of `TransientPanelConfig`. -/
inductive FieldOverride where
  | max_lines (v : Option Int)
  | display_lines (v : Option Int)
  | refresh_per_second (v : Option ℚ)
  | default_status (v : Option String)
  | reserve_lines (v : Option Int)
  | border_style (v : Option String)
  | padding (v : Option (Int × Int))
  | unknown (name : String)
deriving DecidableEq, Repr

/-- The filter `k in valid_names and v is not None` of line 263: keep an
override only if its name is a `TransientPanelConfig` field and its value is
not `None`. -/
def FieldOverride.isKept : FieldOverride → Bool
  | .max_lines (some _) => true
  | .display_lines (some _) => true
  | .refresh_per_second (some _) => true
  | .default_status (some _) => true
  | .reserve_lines (some _) => true
  | .border_style (some _) => true
  | .padding (some _) => true
  | _ => false

/-- `dataclasses.replace` restricted to one cleaned override: set the named
field to the supplied value (line 266). Overrides that the clean filter
removed leave the config unchanged. -/
def applyOverride (c : TransientPanelConfig) : FieldOverride → TransientPanelConfig
  | .max_lines (some n) => { c with max_lines := n }
  | .display_lines (some n) => { c with display_lines := n }
  | .refresh_per_second (some q) => { c with refresh_per_second := q }
  | .default_status (some s) => { c with default_status := s }
  | .reserve_lines (some n) => { c with reserve_lines := n }
  | .border_style (some s) => { c with border_style := s }
  | .padding (some p) => { c with padding := p }
  | _ => c

/-- Python `preset or "default"` (line 261): `None` and the empty string are
falsy, any other string is kept. -/
def resolvePresetKey (preset : Option String) : String :=
  match preset with
  | none => "default"
  | some s => if s = "" then "default" else s

/-- `TRANSIENT_PANEL_PRESETS.get(name) or TRANSIENT_PANEL_PRESETS["default"]`
(line 261): an unknown key falls back to the `"default"` preset. -/
def lookupPreset (name : String) : TransientPanelConfig :=
  (TRANSIENT_PANEL_PRESETS.lookup name).getD
    ((TRANSIENT_PANEL_PRESETS.lookup "default").getD {})

/-- `_resolve_panel_config(preset, config, **overrides)` (lines 255-266):
`base = config or PRESETS.get(preset or "default") or PRESETS["default"]`,
then drop overrides with unknown names or `None` values, and apply the rest
with `replace` (returning `base` unchanged when none survive). -/
def resolve_panel_config (preset : Option String) (config : Option TransientPanelConfig)
    (overrides : List FieldOverride) : TransientPanelConfig :=
  let base := config.getD (lookupPreset (resolvePresetKey preset))
  let clean := overrides.filter FieldOverride.isKept
  if clean.isEmpty then base else clean.foldl applyOverride base

/-- The fallback terminal height of 30 used when `target_console.size.height`
raises (lines 309-312). -/
def fallbackConsoleHeight : Int := 30

/-- `console_height` after the probe (lines 309-312): the probed height when
available, else the fallback of 30. -/
def effectiveConsoleHeight (probe : Option Int) : Int :=
  probe.getD fallbackConsoleHeight

/-- `tail = min(cfg.display_lines, max(1, console_height - cfg.reserve_lines))`
(line 313), computed once at session start. -/
def tailLen (cfg : TransientPanelConfig) (probe : Option Int) : Int :=
  min cfg.display_lines (max 1 (effectiveConsoleHeight probe - cfg.reserve_lines))

/-- The lock-guarded mutable session state: `lines_list` and
`current_status[0]` (lines 305-306). -/
structure PanelState where
  lines_list : List String
  current_status : String
deriving DecidableEq, Repr

/-- Initial state at session start: empty buffer, status `cfg.default_status`
(lines 305-306). -/
def initialState (cfg : TransientPanelConfig) : PanelState :=
  { lines_list := [], current_status := cfg.default_status }

/-- `append(line)` (lines 315-317): push the line onto the end of the buffer. -/
def append (st : PanelState) (line : String) : PanelState :=
  { st with lines_list := st.lines_list ++ [line] }

/-- `set_status(text)` (lines 319-321): replace the status string. -/
def set_status (st : PanelState) (text : String) : PanelState :=
  { st with current_status := text }

/-- `recent = lines_list[-cfg.max_lines:] if len(lines_list) > cfg.max_lines
else lines_list` (line 325): the retained part of the buffer as read, under
the lock, by `render`. -/
def retainedLines (max_lines : Int) (lines : List String) : List String :=
  if (lines.length : Int) > max_lines then pySliceFrom lines (-max_lines) else lines

/-- `visible = recent[-tail:] if len(recent) > tail else recent` (line 326). -/
def visibleLines (max_lines tail : Int) (lines : List String) : List String :=
  let recent := retainedLines max_lines lines
  if (recent.length : Int) > tail then pySliceFrom recent (-tail) else recent

/-- `content = "\n".join(visible)` (line 327): the panel body string. -/
def renderContent (max_lines tail : Int) (lines : List String) : String :=
  String.intercalate "\n" (visibleLines max_lines tail lines)

/-- The `k` most recent entries of `l` in original insertion order (the
spec's notion of the tail of the buffer; all of `l` when `k ≥ l.length`). -/
def mostRecent (k : Nat) (l : List String) : List String :=
  l.drop (l.length - k)

/-- The error raised by the external markup parser
(`rich.errors.MarkupError`, or anything else `Text.from_markup` may raise). -/
inductive MarkupError where
  | parseFailure (msg : String)
deriving DecidableEq, Repr

/-- A Rich `Text` value: either the result of a successful markup parse
(payload kept opaque as the input that produced it) or a literal unstyled
text built by `Text(content)`. -/
inductive StyledText where
  | styled (source : String)
  | literal (raw : String)
deriving DecidableEq, Repr

/-- Lines 329-335 of `render`: `if content:` try `Text.from_markup(content)`,
falling back to `Text(content)` on any parse exception; an empty content
becomes `Text("")`. The external parser is passed in explicitly. -/
def streamedText (parseMarkup : String → Except MarkupError StyledText)
    (content : String) : StyledText :=
  if content ≠ "" then
    match parseMarkup content with
    | .ok t => t
    | .error _ => .literal content
  else .literal ""

/-- A markup parser that fails on every input, standing in for
`Text.from_markup` on inputs it rejects (such as markup the spec calls
malformed). -/
def rejectAllMarkup : String → Except MarkupError StyledText :=
  fun _ => Except.error (MarkupError.parseFailure "markup parse failure")

/-- The panel value built by `render` (lines 338-345): body text, title,
spinner status subtitle, border style and padding. -/
structure RenderedPanel where
  body : StyledText
  title : String
  subtitle : String
  border_style : String
  padding : Int × Int
deriving DecidableEq, Repr

/-- `render()` (lines 323-345): snapshot the state under the lock, compute
the retained/visible tail and join it, parse it as markup with literal
fallback, and attach the spinner status line
`f" {SPINNER_BRAILLE[frame_idx]} {status_text}"` where
`frame_idx = get_braille_frame()`. -/
def render (parseMarkup : String → Except MarkupError StyledText)
    (cfg : TransientPanelConfig) (tail : Int) (title : String)
    (st : PanelState) (monotonic : ℚ) : RenderedPanel :=
  let content := renderContent cfg.max_lines tail st.lines_list
  let frame_idx := get_braille_frame monotonic
  { body := streamedText parseMarkup content
    title := title
    subtitle := " " ++ SPINNER_BRAILLE.getD frame_idx.toNat "" ++ " " ++ st.current_status
    border_style := cfg.border_style
    padding := cfg.padding }

/-- The outcome of the caller-supplied zero-argument task: it either returns
a value or raises some `BaseException`. -/
inductive TaskOutcome (α : Type) (ε : Type) where
  | success (v : α)
  | failure (e : ε)
deriving DecidableEq, Repr

/-- The inner `run()` closure of `run_task` (lines 351-355), which executes
on the background thread: it appends the task's value to `result_holder`, and
catches any `BaseException` into `exc_holder` instead of letting it escape
the thread. Returns the final `(result_holder, exc_holder[0])`. -/
def backgroundRun {α ε : Type} (outcome : TaskOutcome α ε) : List α × Option ε :=
  match outcome with
  | .success v => ([v], none)
  | .failure e => ([], some e)

/-- One call into the external rendering surface (the `Live` object):
entering the context paints the initial frame (`begin`), `live.update`
repaints (`update`), and exiting the context erases the panel
(`endSurface`). -/
inductive SurfaceEvent where
  | begin
  | update
  | endSurface
deriving DecidableEq, Repr

/-- The sequence of rendering-surface calls made by one `run_task` invocation
(lines 359-368), when the poll loop observed the worker alive `polls` times:
enter the `Live` context with an initial frame, update once per poll
iteration, perform the one final update after the loop, then exit the
context. -/
def surfaceTrace (polls : Nat) : List SurfaceEvent :=
  [SurfaceEvent.begin] ++ List.replicate polls SurfaceEvent.update
    ++ [SurfaceEvent.update, SurfaceEvent.endSurface]

/-- `run_task(task_callable)` (lines 347-372) as a trace: the rendering
surface events happen first (the `with Live(...)` block, whose exit is
unconditional), then `th.join()`, then the code raises `exc_holder[0]` if it
is set and otherwise returns `result_holder[0]`. `none` in the second
component models the impossible `IndexError` branch where `result_holder` is
empty with no exception recorded. -/
def run_task {α ε : Type} (polls : Nat) (outcome : TaskOutcome α ε) :
    List SurfaceEvent × Option (Except ε α) :=
  let holders := backgroundRun outcome
  let result : Option (Except ε α) :=
    match holders.2, holders.1 with
    | some e, _ => some (.error e)
    | none, v :: _ => some (.ok v)
    | none, [] => none
  (surfaceTrace polls, result)

/-! ### Helper lemmas -/

/-- Folding `append` over a list of lines appends them, in order, to the
buffer. -/
lemma foldl_append_lines (ls : List String) (st : PanelState) :
    (ls.foldl append st).lines_list = st.lines_list ++ ls := by
  induction ls generalizing st with
  | nil => simp
  | cons a ls ih => simp [append, ih]

/-- For a positive count `t`, the Python slice `l[-t:]` drops all but the
last `t` elements. -/
lemma pySliceFrom_neg (l : List String) (t : Int) (ht : 1 ≤ t) :
    pySliceFrom l (-t) = l.drop (l.length - t.toNat) := by
  unfold pySliceFrom
  rw [if_pos (by omega)]
  simp

/-- For a positive retention cap, the retained buffer is exactly the
`max_lines` most recent lines. -/
lemma retainedLines_eq_mostRecent (m : Int) (l : List String) (hm : 1 ≤ m) :
    retainedLines m l = mostRecent m.toNat l := by
  unfold retainedLines mostRecent
  split
  · exact pySliceFrom_neg l m hm
  · next h =>
    have hlen : l.length ≤ m.toNat := by omega
    rw [Nat.sub_eq_zero_of_le hlen, List.drop_zero]

/-- For a positive tail length, the visible lines are exactly the `tail`
most recent entries of the retained buffer. -/
lemma visibleLines_eq_mostRecent (m t : Int) (l : List String) (ht : 1 ≤ t) :
    visibleLines m t l = mostRecent t.toNat (retainedLines m l) := by
  unfold visibleLines mostRecent
  show (if ((retainedLines m l).length : Int) > t
      then pySliceFrom (retainedLines m l) (-t) else retainedLines m l) = _
  split
  · exact pySliceFrom_neg _ t ht
  · next h =>
    have hlen : (retainedLines m l).length ≤ t.toNat := by omega
    rw [Nat.sub_eq_zero_of_le hlen, List.drop_zero]

/-- `mostRecent` never yields more than `k` entries. -/
lemma mostRecent_length_le (k : Nat) (l : List String) :
    (mostRecent k l).length ≤ k := by
  unfold mostRecent
  rw [List.length_drop]
  omega

/-- The trace of one `run_task` call is the begin, the poll-loop updates plus
the final update, then the single surface teardown. -/
lemma surfaceTrace_eq (n : Nat) :
    surfaceTrace n =
      ([SurfaceEvent.begin] ++ List.replicate (n + 1) SurfaceEvent.update)
        ++ [SurfaceEvent.endSurface] := by
  simp [surfaceTrace, List.replicate_succ']

/-- The rendering surface is torn down exactly once per `run_task` call. -/
lemma surfaceTrace_count_endSurface (n : Nat) :
    (surfaceTrace n).count SurfaceEvent.endSurface = 1 := by
  rw [surfaceTrace_eq]
  simp [List.count_append, List.count_replicate]

/-- The surface teardown is the last surface interaction of `run_task`:
everything after it (the re-raise or the return) happens on an already
cleared terminal. -/
lemma surfaceTrace_getLast (n : Nat) :
    (surfaceTrace n).getLast? = some SurfaceEvent.endSurface := by
  rw [surfaceTrace_eq]
  exact List.getLast?_concat _

/-! ### Claim theorems -/

/-- C1, as stated, is false: after appending "a", "b", "c" with
`max_lines = 2` (so N = 3 > 2), the locked read retains the 2 most recent
lines ["b", "c"], not the N - max_lines = 1 most recent line ["c"]. -/
theorem C1_counterexample :
    ¬ ((retainedLines 2
          ((["a", "b", "c"].foldl append (initialState {})).lines_list)).length ≤ 2 ∧
       retainedLines 2 ((["a", "b", "c"].foldl append (initialState {})).lines_list) =
         mostRecent (3 - 2) ["a", "b", "c"]) := by
  decide

/-- C1 (amended): for every sequence of N append calls with N greater than
`max_lines` (positive), the locked read performed by `render` returns no
more than `max_lines` entries, and the entries returned are the `max_lines`
most recent appended lines (all but the oldest N - `max_lines`) in their
original insertion order. -/
theorem C1_retention_cap (appended : List String) (max_lines : Int)
    (hm : 1 ≤ max_lines) (_hN : (appended.length : Int) > max_lines) :
    (retainedLines max_lines
        ((appended.foldl append (initialState {})).lines_list)).length ≤ max_lines.toNat ∧
    retainedLines max_lines ((appended.foldl append (initialState {})).lines_list) =
      mostRecent max_lines.toNat appended := by
  have hl : (appended.foldl append (initialState {})).lines_list = appended := by
    simpa [initialState] using foldl_append_lines appended (initialState {})
  rw [hl, retainedLines_eq_mostRecent _ _ hm]
  exact ⟨mostRecent_length_le _ _, rfl⟩

/-- Witness for C1: the amended claim at `max_lines = 2` and appended lines
"a", "b", "c". -/
theorem C1_retention_cap_witness :
    (retainedLines 2
        ((["a", "b", "c"].foldl append (initialState {})).lines_list)).length ≤ (2 : Int).toNat ∧
    retainedLines 2 ((["a", "b", "c"].foldl append (initialState {})).lines_list) =
      mostRecent (2 : Int).toNat ["a", "b", "c"] :=
  C1_retention_cap ["a", "b", "c"] 2 (by decide) (by decide)

/-- C2: when the task raises `e`, the background `run` closure captures it
into `exc_holder` (the thread records `([], some e)` rather than letting the
error escape), `run_task` re-raises that same error, the rendering surface's
teardown was called exactly once, and that teardown is the last surface
interaction, so it precedes the re-raise. Holds for any `BaseException`
payload type and any number of poll-loop iterations. -/
theorem C2_failure_reraise_after_teardown {α ε : Type} (polls : Nat) (e : ε) :
    backgroundRun (α := α) (TaskOutcome.failure e) = ([], some e) ∧
    (run_task (α := α) polls (TaskOutcome.failure e)).2 = some (Except.error e) ∧
    (run_task (α := α) polls (TaskOutcome.failure e)).1.count SurfaceEvent.endSurface = 1 ∧
    (run_task (α := α) polls (TaskOutcome.failure e)).1.getLast? =
      some SurfaceEvent.endSurface := by
  refine ⟨rfl, rfl, ?_, ?_⟩
  · exact surfaceTrace_count_endSurface polls
  · exact surfaceTrace_getLast polls

/-- C3: when the task returns `v`, the background thread records
`([v], none)`, `run_task` returns exactly `v`, the rendering surface's
teardown was called exactly once, and that teardown is the last surface
interaction, so it precedes the return. -/
theorem C3_success_return_after_teardown {α ε : Type} (polls : Nat) (v : α) :
    backgroundRun (ε := ε) (TaskOutcome.success v) = ([v], none) ∧
    (run_task (ε := ε) polls (TaskOutcome.success v)).2 = some (Except.ok v) ∧
    (run_task (ε := ε) polls (TaskOutcome.success v)).1.count SurfaceEvent.endSurface = 1 ∧
    (run_task (ε := ε) polls (TaskOutcome.success v)).1.getLast? =
      some SurfaceEvent.endSurface := by
  refine ⟨rfl, rfl, ?_, ?_⟩
  · exact surfaceTrace_count_endSurface polls
  · exact surfaceTrace_getLast polls

/-- C4, as stated, is false for `display_lines = 0` (a value the spec's own
invariant `maxLines ≥ displayLines ≥ 0` admits): the tail is 0, and the
Python slice `recent[-0:]` yields the whole retained buffer ["a"], not the
last 0 entries. -/
theorem C4_counterexample :
    ¬ (visibleLines ({ display_lines := 0 } : TransientPanelConfig).max_lines
          (tailLen { display_lines := 0 } none) ["a"] =
        mostRecent (tailLen { display_lines := 0 } none).toNat
          (retainedLines ({ display_lines := 0 } : TransientPanelConfig).max_lines ["a"])) := by
  decide

/-- C4 (amended): for every `display_lines ≥ 1` and every terminal height
(with the fallback height 30 when the probe fails), the effective visible
tail length computed at session start equals
`min(display_lines, max(1, height - reserve_lines))`, and the rendered panel
body is exactly the last `tail` entries of the retained buffer joined in
order. -/
theorem C4_effective_tail (cfg : TransientPanelConfig) (probe : Option Int)
    (lines : List String) (hd : 1 ≤ cfg.display_lines) :
    tailLen cfg probe =
      min cfg.display_lines (max 1 (effectiveConsoleHeight probe - cfg.reserve_lines)) ∧
    visibleLines cfg.max_lines (tailLen cfg probe) lines =
      mostRecent (tailLen cfg probe).toNat (retainedLines cfg.max_lines lines) ∧
    renderContent cfg.max_lines (tailLen cfg probe) lines =
      String.intercalate "\n"
        (mostRecent (tailLen cfg probe).toNat (retainedLines cfg.max_lines lines)) := by
  have ht : 1 ≤ tailLen cfg probe :=
    le_min hd (le_max_left _ _)
  refine ⟨rfl, visibleLines_eq_mostRecent _ _ _ ht, ?_⟩
  unfold renderContent
  rw [visibleLines_eq_mostRecent _ _ _ ht]

/-- Witness for C4: the amended claim at the default config (display_lines =
24), a probed height of 40, and buffer ["a", "b"]. -/
theorem C4_effective_tail_witness :
    tailLen {} (some 40) =
      min ({} : TransientPanelConfig).display_lines
        (max 1 (effectiveConsoleHeight (some 40) - ({} : TransientPanelConfig).reserve_lines)) ∧
    visibleLines ({} : TransientPanelConfig).max_lines (tailLen {} (some 40)) ["a", "b"] =
      mostRecent (tailLen {} (some 40)).toNat
        (retainedLines ({} : TransientPanelConfig).max_lines ["a", "b"]) ∧
    renderContent ({} : TransientPanelConfig).max_lines (tailLen {} (some 40)) ["a", "b"] =
      String.intercalate "\n"
        (mostRecent (tailLen {} (some 40)).toNat
          (retainedLines ({} : TransientPanelConfig).max_lines ["a", "b"])) :=
  C4_effective_tail {} (some 40) ["a", "b"] (by decide)

/-- C5: with `max_lines = 3` and `display_lines = 2` (tail resolving to 2),
appending "a", "b", "c", "d" gives retained buffer ["b", "c", "d"], visible
tail ["c", "d"], and body "c\nd". -/
theorem C5_concrete_scenario :
    tailLen { max_lines := 3, display_lines := 2 } none = 2 ∧
    retainedLines 3 ((["a", "b", "c", "d"].foldl append
        (initialState { max_lines := 3, display_lines := 2 })).lines_list) =
      ["b", "c", "d"] ∧
    visibleLines 3 2 ((["a", "b", "c", "d"].foldl append
        (initialState { max_lines := 3, display_lines := 2 })).lines_list) =
      ["c", "d"] ∧
    renderContent 3 2 ((["a", "b", "c", "d"].foldl append
        (initialState { max_lines := 3, display_lines := 2 })).lines_list) =
      "c\nd" := by
  decide

/-- C6: preset "streaming" with the single override `display_lines = 5`
resolves to `max_lines = 200` (from the preset) and `display_lines = 5` (the
override, not the preset's 28); and generally overrides beat the explicit
config object, the explicit object beats the preset, and the preset beats
the built-in default. -/
theorem C6_resolution_precedence :
    (resolve_panel_config (some "streaming") none
        [FieldOverride.display_lines (some 5)]).max_lines = 200 ∧
    (resolve_panel_config (some "streaming") none
        [FieldOverride.display_lines (some 5)]).display_lines = 5 ∧
    (∀ (p : Option String) (c : TransientPanelConfig) (n : Int),
      (resolve_panel_config p (some c)
        [FieldOverride.display_lines (some n)]).display_lines = n) ∧
    (∀ (p : Option String) (c : TransientPanelConfig),
      resolve_panel_config p (some c) [] = c) ∧
    (resolve_panel_config (some "streaming") none []).max_lines = 200 ∧
    (resolve_panel_config none none []).max_lines = 100 := by
  refine ⟨by decide, by decide, ?_, ?_, by decide, by decide⟩
  · intro p c n
    simp [resolve_panel_config, FieldOverride.isKept, applyOverride]
  · intro p c
    simp [resolve_panel_config]

/-- C7: whenever the markup parse of the panel body content fails, `render`
does not propagate the failure: the body falls back to that content as
literal unstyled text. -/
theorem C7_markup_fallback (parseMarkup : String → Except MarkupError StyledText)
    (cfg : TransientPanelConfig) (tail : Int) (title : String) (st : PanelState)
    (t : ℚ) (err : MarkupError)
    (h : parseMarkup (renderContent cfg.max_lines tail st.lines_list) = Except.error err) :
    (render parseMarkup cfg tail title st t).body =
      StyledText.literal (renderContent cfg.max_lines tail st.lines_list) := by
  show streamedText parseMarkup (renderContent cfg.max_lines tail st.lines_list) = _
  unfold streamedText
  by_cases hc : renderContent cfg.max_lines tail st.lines_list = ""
  · simp [hc]
  · simp [hc, h]

/-- Witness for C7: a buffer holding the malformed markup "[bold" under a
parser that rejects it renders as the literal text "[bold". -/
theorem C7_markup_fallback_witness :
    (render rejectAllMarkup {} 5 "t"
        { lines_list := ["[bold"], current_status := "Running" } 0).body =
      StyledText.literal "[bold" := by
  have h := C7_markup_fallback rejectAllMarkup {} 5 "t"
      { lines_list := ["[bold"], current_status := "Running" } 0
      (MarkupError.parseFailure "markup parse failure") rfl
  have hc : renderContent ({} : TransientPanelConfig).max_lines 5 ["[bold"] = "[bold" := by
    decide
  rw [hc] at h
  exact h

/-- C8: for every nonnegative monotonic clock reading, the spinner frame
index lies in [0, frameCount) with frameCount = 10, equals
`⌊seconds * refreshRate⌋ mod frameCount`, and the renderer's status line
glyph index comes from the same accessor `get_braille_frame`. -/
theorem C8_braille_frame (t : ℚ) (ht : 0 ≤ t) :
    0 ≤ get_braille_frame t ∧
    get_braille_frame t < (SPINNER_BRAILLE.length : Int) ∧
    SPINNER_BRAILLE.length = 10 ∧
    get_braille_frame t = ⌊t * LIVE_REFRESH_PER_SECOND⌋ % 10 ∧
    (∀ (parseMarkup : String → Except MarkupError StyledText)
        (cfg : TransientPanelConfig) (tail : Int) (title : String) (st : PanelState),
      (render parseMarkup cfg tail title st t).subtitle =
        " " ++ SPINNER_BRAILLE.getD (get_braille_frame t).toNat "" ++ " "
          ++ st.current_status) := by
  have hnum : (SPINNER_BRAILLE.length : Int) = 10 := rfl
  have htr : pyTrunc (t * LIVE_REFRESH_PER_SECOND) = ⌊t * LIVE_REFRESH_PER_SECOND⌋ := by
    unfold pyTrunc
    rw [if_pos (mul_nonneg ht (by norm_num [LIVE_REFRESH_PER_SECOND]))]
  refine ⟨?_, ?_, rfl, ?_, fun _ _ _ _ _ => rfl⟩
  · exact Int.emod_nonneg _ (by rw [hnum]; norm_num)
  · unfold get_braille_frame
    rw [hnum]
    exact Int.emod_lt_of_pos _ (by norm_num)
  · unfold get_braille_frame
    rw [htr, hnum]

/-- Witness for C8: the frame index at the monotonic reading 3/8 seconds. -/
theorem C8_braille_frame_witness :
    0 ≤ get_braille_frame (3 / 8) ∧
    get_braille_frame (3 / 8) = ⌊(3 / 8 : ℚ) * LIVE_REFRESH_PER_SECOND⌋ % 10 := by
  have h := C8_braille_frame (3 / 8) (by norm_num)
  exact ⟨h.1, h.2.2.2.1⟩

/-- C9: override entries with unknown names or `None` values are silently
dropped before merging: resolution only sees the kept overrides, and
dropping an unknown-name or `None`-valued entry never changes the result
(the resolution function of lines 255-266 is total — it has no raise path,
so no `ConfigResolutionError` can surface). -/
theorem C9_override_filtering :
    (∀ (p : Option String) (c : Option TransientPanelConfig) (ovs : List FieldOverride),
      resolve_panel_config p c ovs =
        resolve_panel_config p c (ovs.filter FieldOverride.isKept)) ∧
    (∀ (p : Option String) (c : Option TransientPanelConfig)
        (name : String) (rest : List FieldOverride),
      resolve_panel_config p c (FieldOverride.unknown name :: rest) =
        resolve_panel_config p c rest) ∧
    (∀ (p : Option String) (c : Option TransientPanelConfig) (rest : List FieldOverride),
      resolve_panel_config p c (FieldOverride.display_lines none :: rest) =
        resolve_panel_config p c rest) := by
  refine ⟨?_, ?_, ?_⟩
  · intro p c ovs
    simp [resolve_panel_config, List.filter_filter]
  · intro p c name rest
    simp [resolve_panel_config, FieldOverride.isKept]
  · intro p c rest
    simp [resolve_panel_config, FieldOverride.isKept]

/-- C10: any preset name other than "default" and "streaming", and a `None`
preset, resolve (with no explicit config and no overrides) to the "default"
preset's configuration rather than failing. -/
theorem C10_unknown_preset_defaults (name : String)
    (h1 : name ≠ "default") (h2 : name ≠ "streaming") :
    resolve_panel_config (some name) none [] = ({} : TransientPanelConfig) ∧
    resolve_panel_config none none [] = ({} : TransientPanelConfig) := by
  constructor
  · unfold resolve_panel_config lookupPreset resolvePresetKey TRANSIENT_PANEL_PRESETS
    by_cases he : name = ""
    · subst he
      decide
    · have hb1 : (name == "default") = false := beq_eq_false_iff_ne.mpr h1
      have hb2 : (name == "streaming") = false := beq_eq_false_iff_ne.mpr h2
      simp [List.lookup, he, hb1, hb2]
  · decide

/-- Witness for C10: the unknown preset name "bogus". -/
theorem C10_unknown_preset_defaults_witness :
    resolve_panel_config (some "bogus") none [] = ({} : TransientPanelConfig) ∧
    resolve_panel_config none none [] = ({} : TransientPanelConfig) :=
  C10_unknown_preset_defaults "bogus" (by decide) (by decide)

end RichTransient
